import Mathlib

/-!
Verification development for the QBX layer-potential evaluation engine
(`pytential/qbx/__init__.py`, `pytential/qbx/fmmlib.py`,
`pytential/unregularized.py`).

Python objects are embedded shallowly: discretizations and other opaque
objects become integer identifiers, `None`-able arguments become `Option`,
exceptions become `Except String`, and numpy floats become `Rat` (only
arithmetic on exactly representable quantities occurs in the embedded code).
Arguments whose Python default is the `_not_provided` sentinel are embedded
as `Option`-wrapped values, with `none` meaning "not provided".
-/

set_option maxHeartbeats 1000000

namespace Pytential

/-- A discretization (`meshmode.discretization.Discretization`): the engine
only inspects its identity, its `real_dtype`'s machine epsilon, and its
dimensions, so it is embedded as a record of those. -/
structure Discr where
  id : Nat
  real_dtype_eps : Rat
  ambient_dim : Nat
  dim : Nat
deriving DecidableEq, Repr

/-- One entry of `insn.outputs`: output name, target geometry name,
`qbx_forced_limit` (`None` or an integer side), and kernel index. -/
structure OutputSpec where
  name : String
  target_name : String
  qbx_forced_limit : Option Int
  kernel_index : Nat
deriving DecidableEq, Repr

/-- What `bound_expr.places.get_geometry(name)` can return: either a layer
potential source (whose `density_discr` is then taken) or a plain
discretization/target. -/
inductive TargetGeom where
  | lpotSource (density_discr : Nat)
  | discr (d : Nat)
deriving DecidableEq, Repr

/-- The unwrapping in `get_target_discrs_and_qbx_sides`:
`if isinstance(target_discr, LayerPotentialSourceBase): target_discr =
target_discr.density_discr`. -/
def resolve_target_discr : TargetGeom → Nat
  | .lpotSource d => d
  | .discr d => d

/-- Python `dict` lookup on an association list (insertion-ordered, unique
keys). -/
def dictLookup {κ ν : Type} [DecidableEq κ] : List (κ × ν) → κ → Option ν
  | [], _ => none
  | (k, v) :: rest, k' => if k = k' then some v else dictLookup rest k'

/-- The deduplication key used by `get_target_discrs_and_qbx_sides`:
`(o.target_name, o.qbx_forced_limit)`. -/
def outKey (o : OutputSpec) : String × Option Int :=
  (o.target_name, o.qbx_forced_limit)

/-- `qbx_forced_limit = 0 if qbx_forced_limit is None else qbx_forced_limit`. -/
def normalizeSide : Option Int → Int
  | none => 0
  | some s => s

/-- The `(discr, qbx_forced_limit)` tuple appended to
`target_discrs_and_qbx_sides` for a given key. -/
def entryFor (places : String → TargetGeom) (k : String × Option Int) :
    Nat × Int :=
  (resolve_target_discr (places k.1), normalizeSide k.2)

/-- Loop body of `QBXLayerPotentialSource.get_target_discrs_and_qbx_sides`:
if the key is new, record its number and append the
`(target_discr, qbx_forced_limit)` entry. -/
def gtdaqs_step (places : String → TargetGeom)
    (acc : List ((String × Option Int) × Nat) × List (Nat × Int))
    (o : OutputSpec) :
    List ((String × Option Int) × Nat) × List (Nat × Int) :=
  match dictLookup acc.1 (outKey o) with
  | some _ => acc
  | none =>
      (acc.1 ++ [(outKey o, acc.2.length)], acc.2 ++ [entryFor places (outKey o)])

/-- `QBXLayerPotentialSource.get_target_discrs_and_qbx_sides`: builds
`target_name_and_side_to_number` and the deduplicated tuple
`target_discrs_and_qbx_sides` from the instruction's outputs. -/
def get_target_discrs_and_qbx_sides (places : String → TargetGeom)
    (outputs : List OutputSpec) :
    List ((String × Option Int) × Nat) × List (Nat × Int) :=
  outputs.foldl (gtdaqs_step places) ([], [])

/-- Specification-side description: the distinct deduplication keys of the
outputs, in order of first occurrence. -/
def firstOccurKeys (outputs : List OutputSpec) : List (String × Option Int) :=
  outputs.foldl (fun acc o => if outKey o ∈ acc then acc else acc ++ [outKey o]) []

/-- Numbering of a key list starting at a given index (describes the
`target_name_and_side_to_number` dict contents). -/
def keyNumbering {κ : Type} : List κ → Nat → List (κ × Nat)
  | [], _ => []
  | k :: ks, n => (k, n) :: keyNumbering ks (n + 1)

end Pytential

namespace Pytential

/- Lemmas characterizing `get_target_discrs_and_qbx_sides`. -/

theorem dictLookup_keyNumbering_of_not_mem {κ : Type} [DecidableEq κ]
    (ks : List κ) (n : Nat) (k : κ) (h : k ∉ ks) :
    dictLookup (keyNumbering ks n) k = none := by
  induction ks generalizing n with
  | nil => rfl
  | cons a as ih =>
      simp only [keyNumbering, dictLookup]
      rw [if_neg (by intro hak; exact h (hak ▸ List.mem_cons_self a as))]
      exact ih _ (fun hk => h (List.mem_cons_of_mem a hk))

theorem dictLookup_keyNumbering_of_mem {κ : Type} [DecidableEq κ]
    (ks : List κ) (n : Nat) (k : κ) (h : k ∈ ks) (hnd : ks.Nodup) :
    dictLookup (keyNumbering ks n) k = some (n + ks.indexOf k) := by
  induction ks generalizing n with
  | nil => cases h
  | cons a as ih =>
      simp only [keyNumbering, dictLookup]
      by_cases hak : a = k
      · subst hak
        simp [List.indexOf_cons_self]
      · rw [if_neg hak]
        have hkas : k ∈ as := by
          rcases List.mem_cons.mp h with h1 | h2
          · exact absurd h1.symm hak
          · exact h2
        have hnd' : as.Nodup := (List.nodup_cons.mp hnd).2
        rw [ih (n + 1) hkas hnd']
        rw [List.indexOf_cons_ne as hak]
        congr 1
        omega

theorem keyNumbering_append {κ : Type} (ks : List κ) (k : κ) (n : Nat) :
    keyNumbering (ks ++ [k]) n = keyNumbering ks n ++ [(k, n + ks.length)] := by
  induction ks generalizing n with
  | nil => simp [keyNumbering]
  | cons a as ih =>
      have hu : keyNumbering ((a :: as) ++ [k]) n
          = (a, n) :: keyNumbering (as ++ [k]) (n + 1) := rfl
      rw [hu, ih (n + 1)]
      have h : n + 1 + as.length = n + (as.length + 1) := by omega
      simp only [keyNumbering, List.length_cons, h, List.cons_append]

theorem nodup_append_singleton {α : Type} {l : List α} {k : α}
    (h : l.Nodup) (hk : k ∉ l) : (l ++ [k]).Nodup := by
  rw [List.nodup_append]
  refine ⟨h, List.nodup_singleton _, ?_⟩
  intro a ha hb
  rw [List.mem_singleton] at hb
  subst hb
  exact hk ha

/-- Auxiliary form of `firstOccurKeys` with an explicit accumulator. -/
def firstOccurAux (acc : List (String × Option Int)) (outputs : List OutputSpec) :
    List (String × Option Int) :=
  outputs.foldl (fun acc o => if outKey o ∈ acc then acc else acc ++ [outKey o]) acc

theorem firstOccurKeys_eq_aux (outputs : List OutputSpec) :
    firstOccurKeys outputs = firstOccurAux [] outputs := rfl

theorem firstOccurAux_cons (acc : List (String × Option Int))
    (o : OutputSpec) (os : List OutputSpec) :
    firstOccurAux acc (o :: os)
      = firstOccurAux (if outKey o ∈ acc then acc else acc ++ [outKey o]) os := rfl

theorem firstOccurAux_nodup (outputs : List OutputSpec)
    (acc : List (String × Option Int)) (h : acc.Nodup) :
    (firstOccurAux acc outputs).Nodup := by
  induction outputs generalizing acc with
  | nil => exact h
  | cons o os ih =>
      rw [firstOccurAux_cons]
      by_cases hmem : outKey o ∈ acc
      · rw [if_pos hmem]; exact ih acc h
      · rw [if_neg hmem]
        exact ih _ (nodup_append_singleton h hmem)

theorem mem_firstOccurAux (outputs : List OutputSpec)
    (acc : List (String × Option Int)) (k : String × Option Int) :
    k ∈ firstOccurAux acc outputs ↔ k ∈ acc ∨ ∃ o ∈ outputs, outKey o = k := by
  induction outputs generalizing acc with
  | nil => simp [firstOccurAux]
  | cons o os ih =>
      rw [firstOccurAux_cons]
      by_cases hmem : outKey o ∈ acc
      · rw [if_pos hmem, ih]
        constructor
        · rintro (h | h)
          · exact Or.inl h
          · exact Or.inr (by rcases h with ⟨o', ho', hk⟩; exact ⟨o', List.mem_cons_of_mem _ ho', hk⟩)
        · rintro (h | ⟨o', ho', hk⟩)
          · exact Or.inl h
          · rcases List.mem_cons.mp ho' with rfl | h'
            · exact Or.inl (hk ▸ hmem)
            · exact Or.inr ⟨o', h', hk⟩
      · rw [if_neg hmem, ih]
        simp only [List.mem_append, List.mem_singleton]
        constructor
        · rintro ((h | h) | h)
          · exact Or.inl h
          · exact Or.inr ⟨o, List.mem_cons_self _ _, h.symm⟩
          · rcases h with ⟨o', ho', hk⟩
            exact Or.inr ⟨o', List.mem_cons_of_mem _ ho', hk⟩
        · rintro (h | ⟨o', ho', hk⟩)
          · exact Or.inl (Or.inl h)
          · rcases List.mem_cons.mp ho' with rfl | h'
            · exact Or.inl (Or.inr hk.symm)
            · exact Or.inr ⟨o', h', hk⟩

/-- Main loop invariant: folding the dispatch loop from a state that is the
numbering/entry image of a key list lands in the state for the extended key
list. -/
theorem gtdaqs_foldl_spec (places : String → TargetGeom)
    (outputs : List OutputSpec) (ks : List (String × Option Int))
    (hnd : ks.Nodup) :
    outputs.foldl (gtdaqs_step places) (keyNumbering ks 0, ks.map (entryFor places))
      = (keyNumbering (firstOccurAux ks outputs) 0,
         (firstOccurAux ks outputs).map (entryFor places)) := by
  induction outputs generalizing ks with
  | nil => rfl
  | cons o os ih =>
      rw [List.foldl_cons, firstOccurAux_cons]
      by_cases hmem : outKey o ∈ ks
      · have hstep : gtdaqs_step places (keyNumbering ks 0, ks.map (entryFor places)) o
            = (keyNumbering ks 0, ks.map (entryFor places)) := by
          simp only [gtdaqs_step]
          rw [dictLookup_keyNumbering_of_mem ks 0 (outKey o) hmem hnd]
        rw [hstep, ih ks hnd, if_pos hmem]
      · have hstep : gtdaqs_step places (keyNumbering ks 0, ks.map (entryFor places)) o
            = (keyNumbering (ks ++ [outKey o]) 0,
               (ks ++ [outKey o]).map (entryFor places)) := by
          simp only [gtdaqs_step]
          rw [dictLookup_keyNumbering_of_not_mem ks 0 (outKey o) hmem,
            keyNumbering_append]
          simp
        rw [hstep, ih (ks ++ [outKey o]) (nodup_append_singleton hnd hmem),
          if_neg hmem]

/-- Closed form of `get_target_discrs_and_qbx_sides`. -/
theorem gtdaqs_eq (places : String → TargetGeom) (outputs : List OutputSpec) :
    get_target_discrs_and_qbx_sides places outputs
      = (keyNumbering (firstOccurKeys outputs) 0,
         (firstOccurKeys outputs).map (entryFor places)) := by
  have := gtdaqs_foldl_spec places outputs [] List.nodup_nil
  simpa [get_target_discrs_and_qbx_sides, keyNumbering, firstOccurKeys_eq_aux] using this

theorem firstOccurKeys_nodup (outputs : List OutputSpec) :
    (firstOccurKeys outputs).Nodup := by
  rw [firstOccurKeys_eq_aux]
  exact firstOccurAux_nodup outputs [] List.nodup_nil

theorem mem_firstOccurKeys (outputs : List OutputSpec) (k : String × Option Int) :
    k ∈ firstOccurKeys outputs ↔ ∃ o ∈ outputs, outKey o = k := by
  rw [firstOccurKeys_eq_aux, mem_firstOccurAux]
  simp

/-- C6: the list of target discretizations built from an instruction's
outputs contains exactly one entry per distinct `(target name, forced-limit
side)` key occurring among the outputs, in first-occurrence order (it is the
image of the nodup first-occurrence key list under the entry construction),
and every output's key is mapped by `target_name_and_side_to_number` to the
index of its key's entry in that list. -/
theorem C6_target_discr_dedup (places : String → TargetGeom)
    (outputs : List OutputSpec) :
    ((get_target_discrs_and_qbx_sides places outputs).2
        = (firstOccurKeys outputs).map (entryFor places))
    ∧ (firstOccurKeys outputs).Nodup
    ∧ (∀ k, k ∈ firstOccurKeys outputs ↔ ∃ o ∈ outputs, outKey o = k)
    ∧ (∀ o ∈ outputs, ∃ i,
        dictLookup (get_target_discrs_and_qbx_sides places outputs).1 (outKey o)
          = some i
        ∧ ((get_target_discrs_and_qbx_sides places outputs).2)[i]?
          = some (entryFor places (outKey o))) := by
  refine ⟨?_, firstOccurKeys_nodup outputs, mem_firstOccurKeys outputs, ?_⟩
  · rw [gtdaqs_eq]
  · intro o ho
    have hmem : outKey o ∈ firstOccurKeys outputs :=
      (mem_firstOccurKeys outputs (outKey o)).mpr ⟨o, ho, rfl⟩
    refine ⟨@List.indexOf _ instBEqOfDecidableEq (outKey o) (firstOccurKeys outputs),
      ?_, ?_⟩
    · rw [gtdaqs_eq]
      rw [dictLookup_keyNumbering_of_mem _ 0 _ hmem (firstOccurKeys_nodup outputs)]
      rw [Nat.zero_add]
    · rw [gtdaqs_eq]
      show ((firstOccurKeys outputs).map (entryFor places))[
          (@List.indexOf _ instBEqOfDecidableEq (outKey o) (firstOccurKeys outputs))]? = _
      rw [List.getElem?_map, List.getElem?_indexOf hmem]
      rfl

/-- Witness for C6 at a concrete instruction with a duplicated key: two
outputs share the key `("tgt", +1)`, a third has key `("tgt", None)`. -/
theorem C6_target_discr_dedup_witness :
    (get_target_discrs_and_qbx_sides (fun _ => TargetGeom.discr 7)
        [⟨"u", "tgt", some 1, 0⟩, ⟨"v", "tgt", some 1, 1⟩, ⟨"w", "tgt", none, 0⟩]).2
      = (firstOccurKeys
          [⟨"u", "tgt", some 1, 0⟩, ⟨"v", "tgt", some 1, 1⟩, ⟨"w", "tgt", none, 0⟩]).map
          (entryFor (fun _ => TargetGeom.discr 7)) :=
  (C6_target_discr_dedup (fun _ => TargetGeom.discr 7)
      [⟨"u", "tgt", some 1, 0⟩, ⟨"v", "tgt", some 1, 1⟩, ⟨"w", "tgt", none, 0⟩]).1

end Pytential

namespace Pytential

/- Embedding of `pytential/qbx/fmmlib.py` (`QBXFMMLibExpansionWrangler.__init__`
kernel digestion) and the backend dispatch of
`QBXLayerPotentialSource.expansion_wrangler_code_container`. -/

/-- The sumpy kernels the wrangler code inspects: `HelmholtzKernel` (with its
`helmholtz_k_name`), any other base kernel (represented by `LaplaceKernel`),
and the `AxisTargetDerivative` / `DirectionalSourceDerivative` wrappers. -/
inductive Kernel where
  | helmholtz (dim : Nat) (helmholtz_k_name : String)
  | laplace (dim : Nat)
  | axisTargetDerivative (axis : Nat) (inner : Kernel)
  | directionalSourceDerivative (dir_vec_name : String) (inner : Kernel)
deriving DecidableEq, Repr

/-- State threaded through the `__init__` loop over `out_kernels`:
the lists `k_names`, `source_deriv_names`, `outputs` and the `ifgrad` flag. -/
structure DigestState where
  k_names : List String
  source_deriv_names : List (Option String)
  outputs : List (List Nat)
  ifgrad : Bool
deriving DecidableEq, Repr

/-- `is_supported_helmknl(knl)`: appends to `source_deriv_names` (always) and
`k_names` (when supported), unwraps one `DirectionalSourceDerivative` layer,
and reports whether the (unwrapped) kernel is the 3D `HelmholtzKernel`.
Returns the boolean result together with the updated state. -/
def is_supported_helmknl (st : DigestState) (knl : Kernel) : Bool × DigestState :=
  let sdnKnl : Option String × Kernel :=
    match knl with
    | .directionalSourceDerivative d inner => (some d, inner)
    | k => (none, k)
  let st1 := { st with source_deriv_names := st.source_deriv_names ++ [sdnKnl.1] }
  match sdnKnl.2 with
  | .helmholtz d kname =>
      if d == 3 then (true, { st1 with k_names := st1.k_names ++ [kname] })
      else (false, st1)
  | _ => (false, st1)

/-- One iteration of the loop `for out_knl in self.code.out_kernels` in
`QBXFMMLibExpansionWrangler.__init__`. -/
def digest_step (st : DigestState) (out_knl : Kernel) : Except String DigestState :=
  match is_supported_helmknl st out_knl with
  | (true, st1) => .ok { st1 with outputs := st1.outputs ++ [[]] }
  | (false, st1) =>
    match out_knl with
    | .axisTargetDerivative axis inner =>
        match is_supported_helmknl st1 inner with
        | (true, st2) =>
            .ok { st2 with outputs := st2.outputs ++ [[axis]], ifgrad := true }
        | (false, _) =>
            .error "only the 3D Helmholtz kernel and its target derivatives are supported for now"
    | _ =>
        .error "only the 3D Helmholtz kernel and its target derivatives are supported for now"

/-- `pytools.is_single_valued`: raises on an empty iterable, otherwise tells
whether all elements are equal. -/
def is_single_valued {α : Type} [DecidableEq α] : List α → Except String Bool
  | [] => .error "empty iterable passed to is_single_valued"
  | x :: xs => .ok (xs.all (fun y => y == x))

/-- `pytools.single_valued`: raises on an empty iterable, asserts all
elements equal, returns the first. -/
def single_valued {α : Type} [DecidableEq α] : List α → Except String α
  | [] => .error "empty iterable passed to single_valued"
  | x :: xs =>
      if xs.all (fun y => y == x) then .ok x
      else .error "assertion failed: single_valued"

/-- The data `QBXFMMLibExpansionWrangler.__init__` computes before calling
the superclass constructor. -/
structure FmmlibWrangler where
  outputs : List (List Nat)
  ifgrad : Bool
  source_deriv_name : Option String
  helmholtz_k : Rat
  level_orders : List Nat
deriving DecidableEq, Repr

/-- `QBXFMMLibExpansionWrangler.__init__`: digest `out_kernels`, check the
source-derivative names are single-valued, extract the single Helmholtz
parameter name and look it up in `kernel_extra_kwargs`, build `level_orders`
and assert it is single-valued (and its value truthy). -/
def qbx_fmmlib_wrangler_init (out_kernels : List Kernel)
    (kernel_extra_kwargs : List (String × Rat))
    (fmm_level_to_order : Nat → Nat) (nlevels : Nat) :
    Except String FmmlibWrangler :=
  match out_kernels.foldlM digest_step ⟨[], [], [], false⟩ with
  | .error e => .error e
  | .ok st =>
    match is_single_valued st.source_deriv_names with
    | .error e => .error e
    | .ok b =>
      if !b then
        .error "not all kernels passed are the same in whether they represent a source derivative"
      else
        match st.source_deriv_names with
        | [] => .error "IndexError: source_deriv_names[0]"
        | source_deriv_name :: _ =>
          match single_valued st.k_names with
          | .error e => .error e
          | .ok k_name =>
            match dictLookup kernel_extra_kwargs k_name with
            | none => .error "KeyError: kernel_extra_kwargs"
            | some helmholtz_k =>
              let level_orders := (List.range nlevels).map fmm_level_to_order
              match single_valued level_orders with
              | .error e => .error e
              | .ok n =>
                  if n = 0 then .error "assertion failed: single_valued(level_orders)"
                  else .ok ⟨st.outputs, st.ifgrad, source_deriv_name,
                            helmholtz_k, level_orders⟩

/-- The result of `expansion_wrangler_code_container`: one of the two backend
code containers. -/
inductive WranglerCodeContainer where
  | sumpy (out_kernels : List Kernel) (use_fft : Bool)
  | fmmlib (out_kernels : List Kernel)
deriving DecidableEq, Repr

/-- `QBXLayerPotentialSource.expansion_wrangler_code_container`: dispatch on
`self.fmm_backend`, raising `ValueError` for any other backend name. -/
def expansion_wrangler_code_container (fmm_backend : String) (use_fft : Bool)
    (out_kernels : List Kernel) : Except String WranglerCodeContainer :=
  if fmm_backend = "sumpy" then .ok (.sumpy out_kernels use_fft)
  else if fmm_backend = "fmmlib" then .ok (.fmmlib out_kernels)
  else .error ("invalid FMM backend: " ++ fmm_backend)

/-- A constructed wrangler. The sumpy wrangler construction lives in
`pytential/qbx/fmm.py`, which is not under src. Modelled from the spec: the
generic backend "operating on tree-reordered bulk arrays generically for
arbitrary kernels" constructs for any kernel list. -/
inductive Wrangler where
  | sumpy (out_kernels : List Kernel)
  | fmmlib (w : FmmlibWrangler)
deriving DecidableEq, Repr

/-- `expansion_wrangler_code_container(...).get_wrangler(...)` as invoked from
`exec_compute_potential_insn_fmm`. -/
def get_wrangler (fmm_backend : String) (use_fft : Bool)
    (out_kernels : List Kernel) (kernel_extra_kwargs : List (String × Rat))
    (fmm_level_to_order : Nat → Nat) (nlevels : Nat) : Except String Wrangler :=
  match expansion_wrangler_code_container fmm_backend use_fft out_kernels with
  | .error e => .error e
  | .ok (.sumpy ks _) => .ok (.sumpy ks)
  | .ok (.fmmlib ks) =>
      match qbx_fmmlib_wrangler_init ks kernel_extra_kwargs
          fmm_level_to_order nlevels with
      | .error e => .error e
      | .ok w => .ok (.fmmlib w)

end Pytential

namespace Pytential

/- Embedding of `QBXLayerPotentialSource.exec_compute_potential_insn_fmm`. -/

/-- Target association states (`pytential.qbx.geometry.target_state`; that
module is not under src). Modelled from the spec: "for every target, an
integer state — UNMARKED / associated-to-center-index / FAILED". -/
inductive TargetState where
  | unmarked
  | assigned (center : Nat)
  | failed
deriving DecidableEq, Repr

/-- `tgt_to_qbx_center[i] >= 0`: associated center indices are nonnegative
integers, the UNMARKED/FAILED sentinels are negative. -/
def TargetState.hasCenter : TargetState → Bool
  | .assigned _ => true
  | _ => false

/-- The parts of `QBXFMMGeometryData` the execution paths read
(`pytential/qbx/geometry.py` is not under src). Modelled from the spec:
GeometryData owns the target association result and per-output-group slice
ranges (`target_discr_starts`) into the flat target array; the first
`ncenters` user targets are the expansion centers. -/
structure QBXFMMGeometryDataView where
  ncenters : Nat
  user_target_to_center : List TargetState
  target_discr_starts : List Nat
deriving DecidableEq, Repr

/-- A value assigned to a named output by the FMM path: the literal `0`
placeholder produced on inspector veto, or a slice of the driver's
per-kernel potential array. -/
inductive FmmOutVal where
  | scalarZero
  | arr (a : List Int)
deriving DecidableEq, Repr

/-- `QBXLayerPotentialSource.exec_compute_potential_insn_fmm`. The geometry
accessor, inspector verdict and FMM driver output are parameters (the driver
itself lives in `pytential/qbx/fmm.py`, not under src). The returned `Bool`
records whether the code path that invokes `fmm_driver` was reached; timing
data is not modelled. -/
def exec_compute_potential_insn_fmm
    (places : String → TargetGeom)
    (geometry : List (Nat × Int) → QBXFMMGeometryDataView)
    (fmm_backend : String) (use_fft : Bool)
    (out_kernels : List Kernel)
    (kernel_extra_kwargs : List (String × Rat))
    (fmm_level_to_order : Nat → Nat) (nlevels : Nat)
    (geometry_data_inspector : Option Bool)
    (driver_potentials : List (List Int))
    (outputs : List OutputSpec) :
    Except String (List (String × FmmOutVal)) × Bool :=
  let mtds := get_target_discrs_and_qbx_sides places outputs
  let geo := geometry mtds.2
  match get_wrangler fmm_backend use_fft out_kernels kernel_extra_kwargs
      fmm_level_to_order nlevels with
  | .error e => (.error e, false)
  | .ok _ =>
      if geo.user_target_to_center.any (fun s => s == TargetState.failed) then
        (.error "geometry has failed targets", false)
      else
        match geometry_data_inspector with
        | some false =>
            (.ok (outputs.map fun o => (o.name, FmmOutVal.scalarZero)), false)
        | _ =>
            (.ok (outputs.map fun o =>
              let tsn := (dictLookup mtds.1 (outKey o)).getD 0
              let lo := geo.target_discr_starts.getD tsn 0
              let hi := geo.target_discr_starts.getD (tsn + 1) 0
              (o.name, FmmOutVal.arr
                (((driver_potentials.getD o.kernel_index []).drop lo).take (hi - lo)))),
             true)

/-- `True` exactly on `Except.error`. -/
def isErrorB {α : Type} : Except String α → Bool
  | .error _ => true
  | .ok _ => false

/-- C1: if the geometry's target association contains a FAILED target, the
FMM execution path returns an error: no branch invoking the FMM driver is
reached (flag `false`) and no output values are produced. -/
theorem C1_failed_targets_abort
    (places : String → TargetGeom)
    (geometry : List (Nat × Int) → QBXFMMGeometryDataView)
    (fmm_backend : String) (use_fft : Bool) (out_kernels : List Kernel)
    (kernel_extra_kwargs : List (String × Rat))
    (fmm_level_to_order : Nat → Nat) (nlevels : Nat)
    (geometry_data_inspector : Option Bool)
    (driver_potentials : List (List Int)) (outputs : List OutputSpec)
    (hfail : TargetState.failed ∈ QBXFMMGeometryDataView.user_target_to_center
      (geometry (get_target_discrs_and_qbx_sides places outputs).2)) :
    isErrorB (exec_compute_potential_insn_fmm places geometry fmm_backend use_fft
        out_kernels kernel_extra_kwargs fmm_level_to_order nlevels
        geometry_data_inspector driver_potentials outputs).1 = true
    ∧ (exec_compute_potential_insn_fmm places geometry fmm_backend use_fft
        out_kernels kernel_extra_kwargs fmm_level_to_order nlevels
        geometry_data_inspector driver_potentials outputs).2 = false := by
  have hany : (QBXFMMGeometryDataView.user_target_to_center
      (geometry (get_target_discrs_and_qbx_sides places outputs).2)).any
        (fun s => s == TargetState.failed) = true :=
    List.any_eq_true.mpr ⟨TargetState.failed, hfail, by simp⟩
  unfold exec_compute_potential_insn_fmm
  cases hw : get_wrangler fmm_backend use_fft out_kernels kernel_extra_kwargs
      fmm_level_to_order nlevels with
  | error e => exact ⟨rfl, rfl⟩
  | ok w => simp [hany, isErrorB]

/-- Witness for C1: a single FAILED target aborts a concrete FMM request. -/
theorem C1_failed_targets_abort_witness :
    isErrorB (exec_compute_potential_insn_fmm (fun _ => TargetGeom.discr 4)
        (fun _ => ⟨1, [TargetState.failed], [0, 1]⟩) "sumpy" false
        [Kernel.helmholtz 3 "k"] [("k", (2 : Rat))] (fun _ => 3) 1 none [[5]]
        [⟨"u", "tgt", some 1, 0⟩]).1 = true
    ∧ (exec_compute_potential_insn_fmm (fun _ => TargetGeom.discr 4)
        (fun _ => ⟨1, [TargetState.failed], [0, 1]⟩) "sumpy" false
        [Kernel.helmholtz 3 "k"] [("k", (2 : Rat))] (fun _ => 3) 1 none [[5]]
        [⟨"u", "tgt", some 1, 0⟩]).2 = false :=
  C1_failed_targets_abort (fun _ => TargetGeom.discr 4)
    (fun _ => ⟨1, [TargetState.failed], [0, 1]⟩) "sumpy" false
    [Kernel.helmholtz 3 "k"] [("k", (2 : Rat))] (fun _ => 3) 1 none [[5]]
    [⟨"u", "tgt", some 1, 0⟩] (by decide)

/-- C7: if a geometry-data inspector is configured and vetoes the run (and
the request would otherwise proceed: the wrangler constructed and no target
FAILED), the FMM path returns the zero placeholder for every named output of
the instruction and never reaches the driver-invoking branch. -/
theorem C7_inspector_veto_zero_placeholders
    (places : String → TargetGeom)
    (geometry : List (Nat × Int) → QBXFMMGeometryDataView)
    (fmm_backend : String) (use_fft : Bool) (out_kernels : List Kernel)
    (kernel_extra_kwargs : List (String × Rat))
    (fmm_level_to_order : Nat → Nat) (nlevels : Nat)
    (driver_potentials : List (List Int)) (outputs : List OutputSpec)
    (w : Wrangler)
    (hw : get_wrangler fmm_backend use_fft out_kernels kernel_extra_kwargs
        fmm_level_to_order nlevels = .ok w)
    (hnofail : TargetState.failed ∉ QBXFMMGeometryDataView.user_target_to_center
      (geometry (get_target_discrs_and_qbx_sides places outputs).2)) :
    exec_compute_potential_insn_fmm places geometry fmm_backend use_fft
        out_kernels kernel_extra_kwargs fmm_level_to_order nlevels
        (some false) driver_potentials outputs
      = (.ok (outputs.map fun o => (o.name, FmmOutVal.scalarZero)), false) := by
  have hany : (QBXFMMGeometryDataView.user_target_to_center
      (geometry (get_target_discrs_and_qbx_sides places outputs).2)).any
        (fun s => s == TargetState.failed) = false := by
    rw [List.any_eq_false]
    intro x hx
    simp only [beq_iff_eq]
    intro hxf
    exact hnofail (hxf ▸ hx)
  unfold exec_compute_potential_insn_fmm
  rw [hw]
  simp [hany]

/-- Witness for C7: a concrete vetoed request yields the zero placeholders. -/
theorem C7_inspector_veto_zero_placeholders_witness :
    exec_compute_potential_insn_fmm (fun _ => TargetGeom.discr 4)
        (fun _ => ⟨1, [TargetState.assigned 0], [0, 1]⟩) "sumpy" false
        [Kernel.helmholtz 3 "k"] [("k", (2 : Rat))] (fun _ => 3) 1
        (some false) [[5]] [⟨"u", "tgt", some 1, 0⟩]
      = (.ok [("u", FmmOutVal.scalarZero)], false) :=
  C7_inspector_veto_zero_placeholders (fun _ => TargetGeom.discr 4)
    (fun _ => ⟨1, [TargetState.assigned 0], [0, 1]⟩) "sumpy" false
    [Kernel.helmholtz 3 "k"] [("k", (2 : Rat))] (fun _ => 3) 1 [[5]]
    [⟨"u", "tgt", some 1, 0⟩] (.sumpy [Kernel.helmholtz 3 "k"]) rfl (by decide)

end Pytential

namespace Pytential

/- C3: kernel support of the fmmlib wrangler and backend-name dispatch. -/

/-- The claim's literal kernel condition: "the 3D Helmholtz kernel or an
axis target derivative of it". -/
def isHelm3OrAxisDeriv : Kernel → Bool
  | .helmholtz d _ => d == 3
  | .axisTargetDerivative _ (.helmholtz d _) => d == 3
  | _ => false

/-- One-step unwrap of a `DirectionalSourceDerivative`, as
`is_supported_helmknl` performs. -/
def stripOneSourceDeriv : Kernel → Kernel
  | .directionalSourceDerivative _ inner => inner
  | k => k

/-- `isinstance(knl, HelmholtzKernel) and knl.dim == 3`. -/
def isHelm3 : Kernel → Bool
  | .helmholtz d _ => d == 3
  | _ => false

/-- For an `AxisTargetDerivative`, whether its inner kernel passes
`is_supported_helmknl`. -/
def atdInnerSupported : Kernel → Bool
  | .axisTargetDerivative _ inner => isHelm3 (stripOneSourceDeriv inner)
  | _ => false

/-- The kernels the fmmlib digestion actually accepts: a 3D Helmholtz kernel
possibly wrapped in one `DirectionalSourceDerivative`, or an
`AxisTargetDerivative` of such. -/
def fmmlibSupported (k : Kernel) : Bool :=
  isHelm3 (stripOneSourceDeriv k) || atdInnerSupported k

theorem is_supported_helmknl_fst (st : DigestState) (k : Kernel) :
    (is_supported_helmknl st k).1 = isHelm3 (stripOneSourceDeriv k) := by
  cases k with
  | helmholtz d name =>
      simp only [is_supported_helmknl, isHelm3, stripOneSourceDeriv]
      cases hd : d == 3 <;> simp [hd]
  | laplace d => rfl
  | axisTargetDerivative a inner => rfl
  | directionalSourceDerivative dn inner =>
      cases inner with
      | helmholtz d name =>
          simp only [is_supported_helmknl, isHelm3, stripOneSourceDeriv]
          cases hd : d == 3 <;> simp [hd]
      | laplace d => rfl
      | axisTargetDerivative a inner2 => rfl
      | directionalSourceDerivative dn2 inner2 => rfl

theorem digest_step_error (st : DigestState) (knl : Kernel)
    (h : fmmlibSupported knl = false) :
    digest_step st knl
      = .error "only the 3D Helmholtz kernel and its target derivatives are supported for now" := by
  have h1 : isHelm3 (stripOneSourceDeriv knl) = false := by
    have hor : (isHelm3 (stripOneSourceDeriv knl) || atdInnerSupported knl) = false := h
    cases hv : isHelm3 (stripOneSourceDeriv knl)
    · rfl
    · rw [hv] at hor
      exact Bool.noConfusion hor
  have hfst := is_supported_helmknl_fst st knl
  rw [h1] at hfst
  unfold digest_step
  rcases hp : is_supported_helmknl st knl with ⟨b1, st1⟩
  rw [hp] at hfst
  have hb1 : b1 = false := hfst
  subst hb1
  cases knl with
  | helmholtz d name => rfl
  | laplace d => rfl
  | directionalSourceDerivative dn inner => rfl
  | axisTargetDerivative a inner =>
      have h2 : isHelm3 (stripOneSourceDeriv inner) = false := h
      have hfst2 := is_supported_helmknl_fst st1 inner
      rw [h2] at hfst2
      show (match is_supported_helmknl st1 inner with
        | (true, st2) => Except.ok { st2 with
            outputs := st2.outputs ++ [[a]], ifgrad := true }
        | (false, _) => Except.error
            "only the 3D Helmholtz kernel and its target derivatives are supported for now")
        = Except.error
            "only the 3D Helmholtz kernel and its target derivatives are supported for now"
      rcases hp2 : is_supported_helmknl st1 inner with ⟨b2, st2⟩
      rw [hp2] at hfst2
      have hb2 : b2 = false := hfst2
      subst hb2
      rfl

theorem foldlM_except_error {α σ : Type} (f : σ → α → Except String σ)
    (l : List α) (st : σ) (x : α) (hmem : x ∈ l)
    (herr : ∀ s, isErrorB (f s x) = true) :
    isErrorB (List.foldlM f st l) = true := by
  induction l generalizing st with
  | nil => cases hmem
  | cons a as ih =>
      rw [List.foldlM_cons]
      cases hfa : f st a with
      | error e => rfl
      | ok s' =>
          rcases List.mem_cons.mp hmem with rfl | hmem'
          · have h1 := herr st
            rw [hfa] at h1
            exact Bool.noConfusion h1
          · show isErrorB (List.foldlM f s' as) = true
            exact ih s' hmem'

/-- C3 (amended): if any requested output kernel is not a 3D Helmholtz
kernel — allowing one directional-source-derivative wrapping — or an axis
target derivative of such, the fmmlib wrangler construction raises; and any
FMM backend name outside {"sumpy", "fmmlib"} raises at wrangler-code-container
selection. -/
theorem C3_unsupported_kernel_and_backend_error :
    (∀ (out_kernels : List Kernel) (kwargs : List (String × Rat))
        (flto : Nat → Nat) (nlevels : Nat) (knl : Kernel),
        knl ∈ out_kernels → fmmlibSupported knl = false →
        isErrorB (qbx_fmmlib_wrangler_init out_kernels kwargs flto nlevels) = true)
    ∧ (∀ (backend : String) (use_fft : Bool) (ks : List Kernel),
        backend ≠ "sumpy" → backend ≠ "fmmlib" →
        isErrorB (expansion_wrangler_code_container backend use_fft ks) = true) := by
  constructor
  · intro out_kernels kwargs flto nlevels knl hmem hunsup
    have hfold : isErrorB (List.foldlM digest_step
        (⟨[], [], [], false⟩ : DigestState) out_kernels) = true :=
      foldlM_except_error digest_step out_kernels _ knl hmem
        (fun s => by rw [digest_step_error s knl hunsup]; rfl)
    unfold qbx_fmmlib_wrangler_init
    cases hf : List.foldlM digest_step (⟨[], [], [], false⟩ : DigestState) out_kernels with
    | error e => rfl
    | ok st =>
        rw [hf] at hfold
        exact Bool.noConfusion hfold
  · intro backend use_fft ks h1 h2
    unfold expansion_wrangler_code_container
    rw [if_neg h1, if_neg h2]
    rfl

/-- Witness for C3 (amended): a 2D Laplace output kernel is rejected by the
fmmlib wrangler, and the backend name "fmm3d" is rejected at
code-container selection. -/
theorem C3_unsupported_kernel_and_backend_error_witness :
    isErrorB (qbx_fmmlib_wrangler_init [Kernel.laplace 2] [("k", (2 : Rat))]
        (fun _ => 3) 1) = true
    ∧ isErrorB (expansion_wrangler_code_container "fmm3d" false []) = true :=
  ⟨C3_unsupported_kernel_and_backend_error.1 [Kernel.laplace 2] [("k", (2 : Rat))]
      (fun _ => 3) 1 (Kernel.laplace 2) (by decide) (by decide),
   C3_unsupported_kernel_and_backend_error.2 "fmm3d" false [] (by decide) (by decide)⟩

/-- Counterexample to C3 as literally stated: a directional source derivative
of the 3D Helmholtz kernel is not "the 3D Helmholtz kernel or an axis target
derivative of it", yet the fmmlib wrangler constructs successfully (no
error). -/
theorem C3_counterexample :
    isHelm3OrAxisDeriv
        (Kernel.directionalSourceDerivative "dir" (Kernel.helmholtz 3 "k")) = false
    ∧ isErrorB (qbx_fmmlib_wrangler_init
        [Kernel.directionalSourceDerivative "dir" (Kernel.helmholtz 3 "k")]
        [("k", (2 : Rat))] (fun _ => 3) 2) = false := by
  constructor
  · rfl
  · rfl

end Pytential

namespace Pytential

/- Embedding of `QBXLayerPotentialSource.exec_compute_potential_insn_direct`. -/

/-- Result value of one output of the direct (non-FMM) path: either the
self-evaluation via the QBX layer-potential applier (with the forced side
selecting the center bank), or a P2P sum corrected on the subset of targets
associated to a QBX center. Records the data the claims are about. -/
inductive DirectOutVal where
  | selfEval (side : Int) (kernel_index : Nat)
  | p2pCorrected (geoKey : Nat × Int) (qbx_tgt_numbers : List Nat)
      (kernel_index : Nat)
deriving DecidableEq, Repr

/-- `geo_data.user_target_to_center()[geo_data.ncenters:]` for the one-entry
geometry `(target_discr, qbx_forced_limit)` the direct path requests. -/
def direct_tgt_to_qbx_center
    (geometry : List (Nat × Int) → QBXFMMGeometryDataView)
    (target_discr : Nat) (qfl : Int) : List TargetState :=
  (geometry [(target_discr, qfl)]).user_target_to_center.drop
    (geometry [(target_discr, qfl)]).ncenters

/-- `qbx_tgt_count` as computed by the scan kernel of
`get_qbx_target_numberer`: the number of entries of `tgt_to_qbx_center`
that are `>= 0` (i.e. carry a center index). -/
def qbx_tgt_count (tgt_to_qbx_center : List TargetState) : Nat :=
  (tgt_to_qbx_center.filter TargetState.hasCenter).length

/-- `qbx_tgt_numbers`: the indices, in order, of the targets that carry a
center (the scan writes index `i` at position `item-1`). -/
def qbx_tgt_numbers (tgt_to_qbx_center : List TargetState) : List Nat :=
  (List.range tgt_to_qbx_center.length).filter
    (fun i => TargetState.hasCenter (tgt_to_qbx_center.getD i TargetState.unmarked))

/-- One iteration of the `for o in insn.outputs` loop of
`QBXLayerPotentialSource.exec_compute_potential_insn_direct`.
`get_discretization` resolves `o.target_name`; `nnodes` gives each
discretization's node count; Python `assert`s and the `centers[...]`
`KeyError` become errors. -/
def exec_direct_output (density_discr : Nat)
    (geometry : List (Nat × Int) → QBXFMMGeometryDataView)
    (nnodes : Nat → Nat) (get_discretization : String → Nat)
    (o : OutputSpec) : Except String (String × DirectOutVal) :=
  let target_discr := get_discretization o.target_name
  if density_discr = target_discr then
    match o.qbx_forced_limit with
    | none => .error "assertion failed: o.qbx_forced_limit is not None"
    | some s =>
        if s.natAbs > 0 then
          if s = -1 ∨ s = 1 then .ok (o.name, .selfEval s o.kernel_index)
          else .error "KeyError: centers"
        else .error "assertion failed: abs(o.qbx_forced_limit) > 0"
  else
    let qfl := normalizeSide o.qbx_forced_limit
    let tgt_to_qbx_center := direct_tgt_to_qbx_center geometry target_discr qfl
    let cnt := qbx_tgt_count tgt_to_qbx_center
    match o.qbx_forced_limit with
    | some s =>
        if s.natAbs = 1 ∧ cnt < nnodes target_discr then
          .error "Did not find a matching QBX center for some targets"
        else
          .ok (o.name, .p2pCorrected (target_discr, qfl)
            (qbx_tgt_numbers tgt_to_qbx_center) o.kernel_index)
    | none =>
        .ok (o.name, .p2pCorrected (target_discr, qfl)
          (qbx_tgt_numbers tgt_to_qbx_center) o.kernel_index)

/-- `QBXLayerPotentialSource.exec_compute_potential_insn_direct`: the loop
over the instruction's outputs; any raised error aborts the whole
evaluation (timing data is not modelled). -/
def exec_compute_potential_insn_direct (density_discr : Nat)
    (geometry : List (Nat × Int) → QBXFMMGeometryDataView)
    (nnodes : Nat → Nat) (get_discretization : String → Nat)
    (outputs : List OutputSpec) :
    Except String (List (String × DirectOutVal)) :=
  outputs.mapM (exec_direct_output density_discr geometry nnodes get_discretization)

theorem mapM_except_error {α β : Type} (f : α → Except String β)
    (l : List α) (x : α) (hmem : x ∈ l) (herr : isErrorB (f x) = true) :
    isErrorB (l.mapM f) = true := by
  induction l with
  | nil => cases hmem
  | cons a as ih =>
      rw [List.mapM_cons]
      cases hfa : f a with
      | error e => rfl
      | ok b =>
          rcases List.mem_cons.mp hmem with rfl | hmem'
          · rw [hfa] at herr
            exact Bool.noConfusion herr
          · have h2 := ih hmem'
            show isErrorB (List.mapM f as >>= fun bs => pure (b :: bs)) = true
            cases hms : List.mapM f as with
            | error e => rfl
            | ok bs =>
                rw [hms] at h2
                exact Bool.noConfusion h2

/-- C2: in the direct path, an output with forced side `|s| = 1` whose
target discretization is not the source's own density discretization, and
whose associated-target count falls short of the discretization's node
count, makes the whole evaluation error out. -/
theorem C2_forced_limit_unsatisfiable (density_discr : Nat)
    (geometry : List (Nat × Int) → QBXFMMGeometryDataView)
    (nnodes : Nat → Nat) (get_discretization : String → Nat)
    (outputs : List OutputSpec) (o : OutputSpec) (s : Int)
    (ho : o ∈ outputs)
    (hs : o.qbx_forced_limit = some s) (habs : s.natAbs = 1)
    (hnotself : get_discretization o.target_name ≠ density_discr)
    (hcnt : qbx_tgt_count (direct_tgt_to_qbx_center geometry
        (get_discretization o.target_name) s)
      < nnodes (get_discretization o.target_name)) :
    isErrorB (exec_compute_potential_insn_direct density_discr geometry
        nnodes get_discretization outputs) = true := by
  apply mapM_except_error _ outputs o ho
  unfold exec_direct_output
  rw [if_neg (fun hh => hnotself hh.symm)]
  simp only [hs, normalizeSide]
  rw [if_pos ⟨habs, hcnt⟩]
  rfl

/-- Witness for C2: one forced-side output over an empty association errors. -/
theorem C2_forced_limit_unsatisfiable_witness :
    isErrorB (exec_compute_potential_insn_direct 0
        (fun _ => ⟨0, [], [0]⟩) (fun _ => 1) (fun _ => 1)
        [⟨"u", "tgt", some 1, 0⟩]) = true :=
  C2_forced_limit_unsatisfiable 0 (fun _ => ⟨0, [], [0]⟩) (fun _ => 1)
    (fun _ => 1) [⟨"u", "tgt", some 1, 0⟩] ⟨"u", "tgt", some 1, 0⟩ 1
    (by decide) rfl rfl (by decide) (by decide)

/-- C10: an output whose `qbx_forced_limit` is `None` is normalized to side
`0` before geometry is built or queried — in the FMM target-gathering step
the stored entry is `(discr, 0)` while the deduplication key keeps `None`,
and in the direct path the geometry is requested at side `0` and the
forced-limit error check (keyed on the original `None`) never fires. -/
theorem C10_none_side_normalized :
    (∀ (places : String → TargetGeom) (outputs : List OutputSpec)
        (o : OutputSpec), o ∈ outputs → o.qbx_forced_limit = none →
        ∃ i, dictLookup (get_target_discrs_and_qbx_sides places outputs).1
              (o.target_name, none) = some i
          ∧ ((get_target_discrs_and_qbx_sides places outputs).2)[i]?
              = some (resolve_target_discr (places o.target_name), 0))
    ∧ (∀ (density_discr : Nat)
        (geometry : List (Nat × Int) → QBXFMMGeometryDataView)
        (nnodes : Nat → Nat) (get_discretization : String → Nat)
        (o : OutputSpec),
        get_discretization o.target_name ≠ density_discr →
        o.qbx_forced_limit = none →
        exec_direct_output density_discr geometry nnodes get_discretization o
          = .ok (o.name, .p2pCorrected (get_discretization o.target_name, 0)
              (qbx_tgt_numbers (direct_tgt_to_qbx_center geometry
                (get_discretization o.target_name) 0))
              o.kernel_index)) := by
  constructor
  · intro places outputs o ho hnone
    have hmem : (o.target_name, (none : Option Int)) ∈ firstOccurKeys outputs := by
      apply (mem_firstOccurKeys outputs _).mpr
      refine ⟨o, ho, ?_⟩
      rw [outKey, hnone]
    refine ⟨@List.indexOf _ instBEqOfDecidableEq (o.target_name, none)
      (firstOccurKeys outputs), ?_, ?_⟩
    · rw [gtdaqs_eq]
      rw [dictLookup_keyNumbering_of_mem _ 0 _ hmem (firstOccurKeys_nodup outputs)]
      rw [Nat.zero_add]
    · rw [gtdaqs_eq]
      show ((firstOccurKeys outputs).map (entryFor places))[
          (@List.indexOf _ instBEqOfDecidableEq (o.target_name, (none : Option Int))
            (firstOccurKeys outputs))]? = _
      rw [List.getElem?_map, List.getElem?_indexOf hmem]
      rfl
  · intro density_discr geometry nnodes get_discretization o hnotself hnone
    unfold exec_direct_output
    rw [if_neg (fun hh => hnotself hh.symm)]
    simp only [hnone, normalizeSide]

/-- Witness for C10 at a concrete `None`-sided output on both paths. -/
theorem C10_none_side_normalized_witness :
    (∃ i, dictLookup (get_target_discrs_and_qbx_sides (fun _ => TargetGeom.discr 7)
            [⟨"u", "tgt", none, 0⟩]).1 ("tgt", none) = some i
        ∧ ((get_target_discrs_and_qbx_sides (fun _ => TargetGeom.discr 7)
            [⟨"u", "tgt", none, 0⟩]).2)[i]? = some (7, 0))
    ∧ exec_direct_output 0 (fun _ => ⟨0, [TargetState.assigned 2], [0]⟩)
          (fun _ => 1) (fun _ => 1) ⟨"u", "tgt", none, 0⟩
        = .ok ("u", .p2pCorrected (1, 0)
            (qbx_tgt_numbers (direct_tgt_to_qbx_center
              (fun _ => ⟨0, [TargetState.assigned 2], [0]⟩) 1 0)) 0) :=
  ⟨C10_none_side_normalized.1 (fun _ => TargetGeom.discr 7)
      [⟨"u", "tgt", none, 0⟩] ⟨"u", "tgt", none, 0⟩ (by decide) rfl,
   C10_none_side_normalized.2 0 (fun _ => ⟨0, [TargetState.assigned 2], [0]⟩)
      (fun _ => 1) (fun _ => 1) ⟨"u", "tgt", none, 0⟩ (by decide) rfl⟩

end Pytential

namespace Pytential

/- Embedding of the constructor / copy configuration handling of
`QBXLayerPotentialSource` and `UnregularizedLayerPotentialSource`. -/

/-- A value of the Python `fmm_order` argument: `False` (direct calculation)
or an integer expansion order. -/
inductive PyFmmOrder where
  | pyFalse
  | order (n : Nat)
deriving DecidableEq, Repr

/-- A value stored in `self.fmm_level_to_order`: `False`, a user-supplied
function (opaque identity), or the internally defined
`fmm_level_to_order(...) : return fmm_order` closure, whose captured value
may be an integer or `None` (when neither argument was given). -/
inductive PyLevelToOrder where
  | pyFalse
  | func (id : Nat)
  | constFunc (val : Option Nat)
deriving DecidableEq, Repr

/-- `expansion_factory`: the `DefaultExpansionFactory()` built when the
argument is `None`, or a user-supplied factory (opaque identity). -/
inductive ExpFactory where
  | defaultFactory
  | custom (id : Nat)
deriving DecidableEq, Repr

/-- `cost_model`: the `CostModel()` built when the argument is `None`, or a
user-supplied model (opaque identity). -/
inductive CostModelV where
  | defaultModel
  | custom (id : Nat)
deriving DecidableEq, Repr

/-- The arguments of `QBXLayerPotentialSource.__init__`. Arguments whose
Python default is `None` or `_not_provided` are `Option`-wrapped with `none`
meaning "not given"; `target_association_tolerance` and
`target_stick_out_factor` distinguish "not provided" (`none`) from an
explicitly passed value-or-`None` (`some (none | some v)`). Leading
underscores of the experimental arguments are dropped. -/
structure QBXInitArgs where
  density_discr : Discr
  fine_order : Option Nat
  qbx_order : Option Nat
  fmm_order : Option PyFmmOrder
  fmm_level_to_order : Option PyLevelToOrder
  to_refined_connection : Option Nat
  expansion_factory : Option ExpFactory
  target_association_tolerance : Option (Option Rat)
  debug : Bool
  refined_for_global_qbx : Bool
  expansions_in_tree_have_extent : Bool
  expansion_stick_out_factor : Rat
  well_sep_is_n_away : Nat
  max_leaf_refine_weight : Option Nat
  box_extent_norm : Option String
  from_sep_smaller_crit : Option String
  from_sep_smaller_min_nsources_cumul : Option Nat
  tree_kind : String
  use_target_specific_qbx : Option Bool
  geometry_data_inspector : Option Nat
  cost_model : Option CostModelV
  fmm_backend : String
  use_fft : Bool
  target_stick_out_factor : Option (Option Rat)
deriving DecidableEq, Repr

/-- The configuration a successfully constructed `QBXLayerPotentialSource`
carries (every attribute `__init__` sets that `copy()` must preserve). -/
structure QBXConfig where
  density_discr : Discr
  fine_order : Nat
  qbx_order : Nat
  fmm_level_to_order : PyLevelToOrder
  target_association_tolerance : Rat
  fmm_backend : String
  use_fft : Bool
  to_refined_connection : Option Nat
  expansion_factory : ExpFactory
  debug : Bool
  refined_for_global_qbx : Bool
  expansions_in_tree_have_extent : Bool
  expansion_stick_out_factor : Rat
  well_sep_is_n_away : Nat
  max_leaf_refine_weight : Nat
  box_extent_norm : String
  from_sep_smaller_crit : String
  from_sep_smaller_min_nsources_cumul : Nat
  tree_kind : String
  use_target_specific_qbx : Option Bool
  geometry_data_inspector : Option Nat
  cost_model : CostModelV
deriving DecidableEq, Repr

/-- `QBXLayerPotentialSource.__init__` argument processing, in source
order: `fine_order`/`qbx_order` checks, the deprecated
`target_stick_out_factor` alias, the `1e3 * eps` tolerance default, the
`fmm_order`/`fmm_level_to_order` exclusivity check, the experimental-argument
defaults, and the final `assert target_association_tolerance is not None`. -/
def qbx_init (a : QBXInitArgs) : Except String QBXConfig :=
  match a.fine_order with
  | none => .error "fine_order must be provided."
  | some fine_order =>
  match a.qbx_order with
  | none => .error "qbx_order must be provided."
  | some qbx_order =>
  match (match a.target_stick_out_factor with
         | some tsof =>
             match a.target_association_tolerance with
             | some _ => Except.error
                 "May not pass both target_association_tolerance and target_stick_out_factor."
             | none => Except.ok (some tsof)
         | none => Except.ok a.target_association_tolerance :
         Except String (Option (Option Rat))) with
  | .error e => .error e
  | .ok tatProvided =>
  let tat : Option Rat :=
    match tatProvided with
    | none => some (a.density_discr.real_dtype_eps * 1000)
    | some v => v
  if a.fmm_order.isSome && a.fmm_level_to_order.isSome then
    .error "may not specify both fmm_order and fmm_level_to_order"
  else
    let box_extent_norm := a.box_extent_norm.getD "l2"
    let from_sep_smaller_crit := a.from_sep_smaller_crit.getD "precise_linf"
    let fmm_level_to_order : PyLevelToOrder :=
      match a.fmm_level_to_order with
      | some flto => flto
      | none =>
          match a.fmm_order with
          | some .pyFalse => .pyFalse
          | some (.order n) => .constFunc (some n)
          | none => .constFunc none
    let max_leaf_refine_weight : Nat :=
      match a.max_leaf_refine_weight with
      | some w => w
      | none =>
          if a.density_discr.ambient_dim = 2 then 64
          else if a.density_discr.ambient_dim = 3 then 512
          else 64
    let from_sep_smaller_min_nsources_cumul : Nat :=
      match a.from_sep_smaller_min_nsources_cumul with
      | some v => v
      | none => if a.density_discr.dim = 1 then 15 else 30
    match tat with
    | none => .error "assertion failed: target_association_tolerance is not None"
    | some tat_val =>
        .ok { density_discr := a.density_discr
              fine_order := fine_order
              qbx_order := qbx_order
              fmm_level_to_order := fmm_level_to_order
              target_association_tolerance := tat_val
              fmm_backend := a.fmm_backend
              use_fft := a.use_fft
              to_refined_connection := a.to_refined_connection
              expansion_factory := a.expansion_factory.getD ExpFactory.defaultFactory
              debug := a.debug
              refined_for_global_qbx := a.refined_for_global_qbx
              expansions_in_tree_have_extent := a.expansions_in_tree_have_extent
              expansion_stick_out_factor := a.expansion_stick_out_factor
              well_sep_is_n_away := a.well_sep_is_n_away
              max_leaf_refine_weight := max_leaf_refine_weight
              box_extent_norm := box_extent_norm
              from_sep_smaller_crit := from_sep_smaller_crit
              from_sep_smaller_min_nsources_cumul := from_sep_smaller_min_nsources_cumul
              tree_kind := a.tree_kind
              use_target_specific_qbx := a.use_target_specific_qbx
              geometry_data_inspector := a.geometry_data_inspector
              cost_model := a.cost_model.getD CostModelV.defaultModel }

/-- The arguments of `QBXLayerPotentialSource.copy`. `Option`-wrapping again
means "not given" (whether the Python default is `None` or `_not_provided`);
doubly wrapped arguments can be explicitly given the value `None`. -/
structure QBXCopyArgs where
  density_discr : Option Discr
  fine_order : Option Nat
  qbx_order : Option Nat
  fmm_order : Option (Option PyFmmOrder)
  fmm_level_to_order : Option (Option PyLevelToOrder)
  to_refined_connection : Option Nat
  expansion_factory : Option ExpFactory
  target_association_tolerance : Option (Option Rat)
  expansions_in_tree_have_extent : Option Bool
  expansion_stick_out_factor : Option Rat
  max_leaf_refine_weight : Option Nat
  box_extent_norm : Option String
  from_sep_smaller_crit : Option String
  tree_kind : Option String
  use_target_specific_qbx : Option (Option Bool)
  geometry_data_inspector : Option Nat
  cost_model : Option (Option CostModelV)
  fmm_backend : Option String
  use_fft : Option Bool
  debug : Option Bool
  refined_for_global_qbx : Option Bool
  target_stick_out_factor : Option (Option Rat)
deriving DecidableEq, Repr

/-- Python `arg or default` for a string argument: `None` and `""` are
falsy. -/
def pyOrStr (arg : Option String) (default : String) : String :=
  match arg with
  | none => default
  | some s => if s = "" then default else s

/-- Python `arg or default` for an integer argument: `None` and `0` are
falsy. -/
def pyOrNat (arg : Option Nat) (default : Nat) : Nat :=
  match arg with
  | none => default
  | some n => if n = 0 then default else n

/-- Python `arg or default` for a boolean argument: `None` and `False` are
falsy. -/
def pyOrBool (arg : Option Bool) (default : Bool) : Bool :=
  match arg with
  | none => default
  | some b => b || default

/-- `QBXLayerPotentialSource.copy`: the deprecated-alias processing, the
`fmm_order`/`fmm_level_to_order` kwargs logic, and the delegating
constructor call combining each argument with the stored value. -/
def qbx_copy (self : QBXConfig) (c : QBXCopyArgs) : Except String QBXConfig :=
  match (match c.target_stick_out_factor with
         | some tsof =>
             match c.target_association_tolerance with
             | some _ => Except.error
                 "May not pass both target_association_tolerance and target_stick_out_factor."
             | none => Except.ok (some tsof)
         | none =>
             match c.target_association_tolerance with
             | none => Except.ok (some (some self.target_association_tolerance))
             | some v => Except.ok (some v) :
         Except String (Option (Option Rat))) with
  | .error e => .error e
  | .ok tat =>
  match (match c.fmm_order, c.fmm_level_to_order with
         | some _, some _ => Except.error
             "may not specify both fmm_order and fmm_level_to_order"
         | some fo, none => Except.ok (fo, none)
         | none, some fl => Except.ok (none, fl)
         | none, none => Except.ok (none, some self.fmm_level_to_order) :
         Except String (Option PyFmmOrder × Option PyLevelToOrder)) with
  | .error e => .error e
  | .ok fmmArgs =>
      qbx_init
        { density_discr := c.density_discr.getD self.density_discr
          fine_order := some (match c.fine_order with
            | some v => v
            | none => self.fine_order)
          qbx_order := some (match c.qbx_order with
            | some v => v
            | none => self.qbx_order)
          fmm_order := fmmArgs.1
          fmm_level_to_order := fmmArgs.2
          to_refined_connection :=
            c.to_refined_connection <|> self.to_refined_connection
          expansion_factory := some (c.expansion_factory.getD self.expansion_factory)
          target_association_tolerance := tat
          debug := match c.debug with
            | some b => b
            | none => self.debug
          refined_for_global_qbx := match c.refined_for_global_qbx with
            | some b => b
            | none => self.refined_for_global_qbx
          expansions_in_tree_have_extent := match c.expansions_in_tree_have_extent with
            | some b => b
            | none => self.expansions_in_tree_have_extent
          expansion_stick_out_factor := match c.expansion_stick_out_factor with
            | some v => v
            | none => self.expansion_stick_out_factor
          well_sep_is_n_away := self.well_sep_is_n_away
          max_leaf_refine_weight :=
            some (pyOrNat c.max_leaf_refine_weight self.max_leaf_refine_weight)
          box_extent_norm := some (pyOrStr c.box_extent_norm self.box_extent_norm)
          from_sep_smaller_crit :=
            some (pyOrStr c.from_sep_smaller_crit self.from_sep_smaller_crit)
          from_sep_smaller_min_nsources_cumul :=
            some self.from_sep_smaller_min_nsources_cumul
          tree_kind := pyOrStr c.tree_kind self.tree_kind
          use_target_specific_qbx := match c.use_target_specific_qbx with
            | some v => v
            | none => self.use_target_specific_qbx
          geometry_data_inspector :=
            c.geometry_data_inspector <|> self.geometry_data_inspector
          cost_model := match c.cost_model with
            | some v => v
            | none => some self.cost_model
          fmm_backend := pyOrStr c.fmm_backend self.fmm_backend
          use_fft := pyOrBool c.use_fft self.use_fft
          target_stick_out_factor := none }

/-- The arguments of `UnregularizedLayerPotentialSource.__init__`
(`fmm_order` defaults to `False`, so it is not `Option`-wrapped). -/
structure UnregInitArgs where
  density_discr : Discr
  fmm_order : PyFmmOrder
  fmm_level_to_order : Option Nat
  expansion_factory : Option ExpFactory
  debug : Bool
deriving DecidableEq, Repr

/-- The configuration a constructed `UnregularizedLayerPotentialSource`
carries. -/
structure UnregConfig where
  density_discr : Discr
  debug : Bool
  fmm_level_to_order : PyLevelToOrder
  expansion_factory : ExpFactory
deriving DecidableEq, Repr

/-- `UnregularizedLayerPotentialSource.__init__`: raises when a non-`False`
`fmm_order` is combined with an `fmm_level_to_order` function, otherwise
resolves the stored `fmm_level_to_order`. -/
def unreg_init (u : UnregInitArgs) : Except String UnregConfig :=
  match u.fmm_order, u.fmm_level_to_order with
  | .order _, some _ =>
      .error "may not specify both fmm_order and fmm_level_to_order"
  | fo, flto =>
      .ok { density_discr := u.density_discr
            debug := u.debug
            fmm_level_to_order :=
              match flto with
              | some f => .func f
              | none =>
                  match fo with
                  | .order n => .constFunc (some n)
                  | .pyFalse => .pyFalse
            expansion_factory := u.expansion_factory.getD ExpFactory.defaultFactory }

end Pytential

namespace Pytential

/-- A `copy()` call with no arguments given. -/
def emptyCopyArgs : QBXCopyArgs :=
  ⟨none, none, none, none, none, none, none, none, none, none, none,
   none, none, none, none, none, none, none, none, none, none, none⟩

/-- A concrete discretization: `real_dtype` epsilon `1e-6`, 2D ambient, 1D
surface. -/
def sampleDiscr : Discr := ⟨0, 1/1000000, 2, 1⟩

/-- A concrete constructed QBX source configuration (with `use_fft` on). -/
def sampleConfig : QBXConfig :=
  { density_discr := sampleDiscr
    fine_order := 4
    qbx_order := 3
    fmm_level_to_order := .func 5
    target_association_tolerance := 1/1000
    fmm_backend := "sumpy"
    use_fft := true
    to_refined_connection := none
    expansion_factory := .defaultFactory
    debug := true
    refined_for_global_qbx := false
    expansions_in_tree_have_extent := true
    expansion_stick_out_factor := 1/2
    well_sep_is_n_away := 2
    max_leaf_refine_weight := 64
    box_extent_norm := "l2"
    from_sep_smaller_crit := "precise_linf"
    from_sep_smaller_min_nsources_cumul := 15
    tree_kind := "adaptive"
    use_target_specific_qbx := none
    geometry_data_inspector := none
    cost_model := .defaultModel }

/-- C8 (amended): `copy()` with no overrides reproduces the configuration
exactly (no field is reset to a constructor default); an override is carried
exactly for every sentinel-guarded or object-valued field, while the fields
combined with Python `or` (`max_leaf_refine_weight`, `box_extent_norm`,
`from_sep_smaller_crit`, `tree_kind`, `fmm_backend`, `use_fft`) fall back to
the original value on a falsy override — in particular `use_fft := False`
cannot turn the flag off — and a `cost_model := None` override installs a
fresh default cost model while `target_association_tolerance := None` trips
the constructor assertion. -/
theorem C8_copy_field_semantics (cfg : QBXConfig) :
    qbx_copy cfg emptyCopyArgs = .ok cfg
    ∧ (∀ d, qbx_copy cfg { emptyCopyArgs with density_discr := some d }
        = .ok { cfg with density_discr := d })
    ∧ (∀ n, qbx_copy cfg { emptyCopyArgs with fine_order := some n }
        = .ok { cfg with fine_order := n })
    ∧ (∀ n, qbx_copy cfg { emptyCopyArgs with qbx_order := some n }
        = .ok { cfg with qbx_order := n })
    ∧ (∀ fo, qbx_copy cfg { emptyCopyArgs with fmm_order := some fo }
        = .ok { cfg with fmm_level_to_order :=
            match fo with
            | none => .constFunc none
            | some .pyFalse => .pyFalse
            | some (.order n) => .constFunc (some n) })
    ∧ (∀ fl, qbx_copy cfg { emptyCopyArgs with fmm_level_to_order := some fl }
        = .ok { cfg with fmm_level_to_order :=
            match fl with
            | some f => f
            | none => .constFunc none })
    ∧ (∀ v, qbx_copy cfg
          { emptyCopyArgs with target_association_tolerance := some (some v) }
        = .ok { cfg with target_association_tolerance := v })
    ∧ (qbx_copy cfg { emptyCopyArgs with target_association_tolerance := some none }
        = .error "assertion failed: target_association_tolerance is not None")
    ∧ (∀ t, qbx_copy cfg { emptyCopyArgs with to_refined_connection := some t }
        = .ok { cfg with to_refined_connection := some t })
    ∧ (∀ f, qbx_copy cfg { emptyCopyArgs with expansion_factory := some f }
        = .ok { cfg with expansion_factory := f })
    ∧ (∀ b, qbx_copy cfg { emptyCopyArgs with debug := some b }
        = .ok { cfg with debug := b })
    ∧ (∀ b, qbx_copy cfg { emptyCopyArgs with refined_for_global_qbx := some b }
        = .ok { cfg with refined_for_global_qbx := b })
    ∧ (∀ b, qbx_copy cfg
          { emptyCopyArgs with expansions_in_tree_have_extent := some b }
        = .ok { cfg with expansions_in_tree_have_extent := b })
    ∧ (∀ v, qbx_copy cfg
          { emptyCopyArgs with expansion_stick_out_factor := some v }
        = .ok { cfg with expansion_stick_out_factor := v })
    ∧ (∀ n, qbx_copy cfg { emptyCopyArgs with max_leaf_refine_weight := some n }
        = .ok { cfg with max_leaf_refine_weight :=
            if n = 0 then cfg.max_leaf_refine_weight else n })
    ∧ (∀ s, qbx_copy cfg { emptyCopyArgs with box_extent_norm := some s }
        = .ok { cfg with box_extent_norm :=
            if s = "" then cfg.box_extent_norm else s })
    ∧ (∀ s, qbx_copy cfg { emptyCopyArgs with from_sep_smaller_crit := some s }
        = .ok { cfg with from_sep_smaller_crit :=
            if s = "" then cfg.from_sep_smaller_crit else s })
    ∧ (∀ s, qbx_copy cfg { emptyCopyArgs with tree_kind := some s }
        = .ok { cfg with tree_kind := if s = "" then cfg.tree_kind else s })
    ∧ (∀ v, qbx_copy cfg
          { emptyCopyArgs with use_target_specific_qbx := some v }
        = .ok { cfg with use_target_specific_qbx := v })
    ∧ (∀ g, qbx_copy cfg
          { emptyCopyArgs with geometry_data_inspector := some g }
        = .ok { cfg with geometry_data_inspector := some g })
    ∧ (∀ m, qbx_copy cfg { emptyCopyArgs with cost_model := some (some m) }
        = .ok { cfg with cost_model := m })
    ∧ (qbx_copy cfg { emptyCopyArgs with cost_model := some none }
        = .ok { cfg with cost_model := CostModelV.defaultModel })
    ∧ (∀ s, qbx_copy cfg { emptyCopyArgs with fmm_backend := some s }
        = .ok { cfg with fmm_backend := if s = "" then cfg.fmm_backend else s })
    ∧ (∀ b, qbx_copy cfg { emptyCopyArgs with use_fft := some b }
        = .ok { cfg with use_fft := b || cfg.use_fft }) := by
  refine ⟨rfl, fun d => rfl, fun n => rfl, fun n => rfl, ?_, ?_,
    fun v => rfl, rfl, fun t => rfl, fun f => rfl, fun b => rfl, fun b => rfl,
    fun b => rfl, fun v => rfl, fun n => rfl, fun s => rfl, fun s => rfl,
    fun s => rfl, fun v => rfl, fun g => rfl, fun m => rfl, rfl,
    fun s => rfl, fun b => rfl⟩
  · intro fo
    rcases fo with _ | fo
    · rfl
    · cases fo <;> rfl
  · intro fl
    rcases fl with _ | fl <;> rfl

/-- Counterexample to C8 as literally stated: overriding `use_fft` with
`False` on a source whose `use_fft` is `True` does not carry the overridden
value — the copy still has `use_fft = True`. -/
theorem C8_counterexample :
    sampleConfig.use_fft = true
    ∧ (qbx_copy sampleConfig { emptyCopyArgs with use_fft := some false }).map
        QBXConfig.use_fft = .ok true := ⟨rfl, rfl⟩

/-- C4: supplying both `fmm_order` and `fmm_level_to_order` raises at
construction — in `QBXLayerPotentialSource.__init__`, in
`QBXLayerPotentialSource.copy`, and (for a non-`False` order) in
`UnregularizedLayerPotentialSource.__init__`. -/
theorem C4_fmm_order_conflict :
    (∀ a : QBXInitArgs, a.fmm_order.isSome → a.fmm_level_to_order.isSome →
        isErrorB (qbx_init a) = true)
    ∧ (∀ (cfg : QBXConfig) (c : QBXCopyArgs),
        c.fmm_order.isSome → c.fmm_level_to_order.isSome →
        isErrorB (qbx_copy cfg c) = true)
    ∧ (∀ (u : UnregInitArgs) (n : Nat) (f : Nat),
        u.fmm_order = .order n → u.fmm_level_to_order = some f →
        isErrorB (unreg_init u) = true) := by
  refine ⟨?_, ?_, ?_⟩
  · intro a h1 h2
    unfold qbx_init
    cases hfo : a.fine_order with
    | none => rfl
    | some fo =>
        cases hqo : a.qbx_order with
        | none => rfl
        | some qo =>
            cases hts : a.target_stick_out_factor with
            | some tsof =>
                cases hta : a.target_association_tolerance with
                | some v => rfl
                | none => rw [h1, h2]; rfl
            | none => rw [h1, h2]; rfl
  · intro cfg c h1 h2
    unfold qbx_copy
    rcases hfo : c.fmm_order with _ | fo
    · rw [hfo] at h1
      exact Bool.noConfusion h1
    rcases hfl : c.fmm_level_to_order with _ | fl
    · rw [hfl] at h2
      exact Bool.noConfusion h2
    cases hts : c.target_stick_out_factor with
    | some tsof =>
        cases hta : c.target_association_tolerance with
        | some v => rfl
        | none => rfl
    | none =>
        cases hta : c.target_association_tolerance with
        | some v => rfl
        | none => rfl
  · intro u n f h1 h2
    unfold unreg_init
    rw [h1, h2]
    rfl

/-- Witness for C4 at concrete conflicting constructions on all three
paths. -/
theorem C4_fmm_order_conflict_witness :
    isErrorB (qbx_init
      { density_discr := sampleDiscr
        fine_order := some 4
        qbx_order := some 3
        fmm_order := some (.order 10)
        fmm_level_to_order := some (.func 7)
        to_refined_connection := none
        expansion_factory := none
        target_association_tolerance := none
        debug := true
        refined_for_global_qbx := false
        expansions_in_tree_have_extent := true
        expansion_stick_out_factor := 1/2
        well_sep_is_n_away := 2
        max_leaf_refine_weight := none
        box_extent_norm := none
        from_sep_smaller_crit := none
        from_sep_smaller_min_nsources_cumul := none
        tree_kind := "adaptive"
        use_target_specific_qbx := none
        geometry_data_inspector := none
        cost_model := none
        fmm_backend := "sumpy"
        use_fft := false
        target_stick_out_factor := none }) = true
    ∧ isErrorB (qbx_copy sampleConfig
        { emptyCopyArgs with
            fmm_order := some (some (.order 10))
            fmm_level_to_order := some (some (.func 7)) }) = true
    ∧ isErrorB (unreg_init ⟨sampleDiscr, .order 5, some 7, none, true⟩) = true :=
  ⟨C4_fmm_order_conflict.1 _ rfl rfl,
   C4_fmm_order_conflict.2.1 sampleConfig _ rfl rfl,
   C4_fmm_order_conflict.2.2 ⟨sampleDiscr, .order 5, some 7, none, true⟩ 5 7 rfl rfl⟩

end Pytential

namespace Pytential

/-- C9: if `target_association_tolerance` is not supplied (and the deprecated
`target_stick_out_factor` alias is not supplied either), the stored tolerance
is `1e3` times the machine epsilon of the density discretization's real
dtype; explicitly passing `None` trips the constructor assertion (so the
stored tolerance is never `None`, as its `Rat` type records); and supplying
both the tolerance and the deprecated alias raises. -/
theorem C9_tolerance_default_and_alias :
    (∀ (a : QBXInitArgs) (cfg : QBXConfig),
        a.target_association_tolerance = none →
        a.target_stick_out_factor = none →
        qbx_init a = .ok cfg →
        cfg.target_association_tolerance = a.density_discr.real_dtype_eps * 1000)
    ∧ (∀ a : QBXInitArgs, a.target_association_tolerance = some none →
        a.target_stick_out_factor = none → isErrorB (qbx_init a) = true)
    ∧ (∀ (a : QBXInitArgs) (v w : Option Rat),
        a.target_association_tolerance = some v →
        a.target_stick_out_factor = some w →
        isErrorB (qbx_init a) = true) := by
  refine ⟨?_, ?_, ?_⟩
  · intro a cfg h1 h2 hok
    unfold qbx_init at hok
    rw [h1, h2] at hok
    cases hfo : a.fine_order with
    | none => rw [hfo] at hok; exact Except.noConfusion hok
    | some fo =>
        rw [hfo] at hok
        cases hqo : a.qbx_order with
        | none => rw [hqo] at hok; exact Except.noConfusion hok
        | some qo =>
            rw [hqo] at hok
            cases hc : a.fmm_order.isSome && a.fmm_level_to_order.isSome with
            | true =>
                rw [hc] at hok
                exact Except.noConfusion hok
            | false =>
                rw [hc] at hok
                injection hok with h
                rw [← h]
  · intro a h1 h2
    unfold qbx_init
    rw [h1, h2]
    cases hfo : a.fine_order with
    | none => rfl
    | some fo =>
        cases hqo : a.qbx_order with
        | none => rfl
        | some qo =>
            cases hc : a.fmm_order.isSome && a.fmm_level_to_order.isSome with
            | true => rfl
            | false => rfl
  · intro a v w h1 h2
    unfold qbx_init
    rw [h1, h2]
    cases hfo : a.fine_order with
    | none => rfl
    | some fo =>
        cases hqo : a.qbx_order with
        | none => rfl
        | some qo => rfl

/-- A constructor call with neither tolerance argument supplied. -/
def sampleInitArgs : QBXInitArgs :=
  { density_discr := sampleDiscr
    fine_order := some 4
    qbx_order := some 3
    fmm_order := none
    fmm_level_to_order := some (.func 5)
    to_refined_connection := none
    expansion_factory := none
    target_association_tolerance := none
    debug := true
    refined_for_global_qbx := false
    expansions_in_tree_have_extent := true
    expansion_stick_out_factor := 1/2
    well_sep_is_n_away := 2
    max_leaf_refine_weight := none
    box_extent_norm := none
    from_sep_smaller_crit := none
    from_sep_smaller_min_nsources_cumul := none
    tree_kind := "adaptive"
    use_target_specific_qbx := none
    geometry_data_inspector := none
    cost_model := none
    fmm_backend := "sumpy"
    use_fft := false
    target_stick_out_factor := none }

/-- The configuration `qbx_init sampleInitArgs` constructs. -/
def sampleInitResult : QBXConfig :=
  { density_discr := sampleDiscr
    fine_order := 4
    qbx_order := 3
    fmm_level_to_order := .func 5
    target_association_tolerance := sampleDiscr.real_dtype_eps * 1000
    fmm_backend := "sumpy"
    use_fft := false
    to_refined_connection := none
    expansion_factory := .defaultFactory
    debug := true
    refined_for_global_qbx := false
    expansions_in_tree_have_extent := true
    expansion_stick_out_factor := 1/2
    well_sep_is_n_away := 2
    max_leaf_refine_weight := 64
    box_extent_norm := "l2"
    from_sep_smaller_crit := "precise_linf"
    from_sep_smaller_min_nsources_cumul := 15
    tree_kind := "adaptive"
    use_target_specific_qbx := none
    geometry_data_inspector := none
    cost_model := .defaultModel }

/-- Witness for C9 at concrete constructor calls: the default tolerance of a
concrete construction equals `1e3 * eps`; passing `None` explicitly errors;
passing both the tolerance and the deprecated alias errors. -/
theorem C9_tolerance_default_and_alias_witness :
    sampleInitResult.target_association_tolerance
      = sampleInitArgs.density_discr.real_dtype_eps * 1000
    ∧ isErrorB (qbx_init
        { sampleInitArgs with target_association_tolerance := some none }) = true
    ∧ isErrorB (qbx_init
        { sampleInitArgs with
            target_association_tolerance := some (some (1/2))
            target_stick_out_factor := some (some (1/2)) }) = true :=
  ⟨C9_tolerance_default_and_alias.1 sampleInitArgs sampleInitResult rfl rfl rfl,
   C9_tolerance_default_and_alias.2.1
     { sampleInitArgs with target_association_tolerance := some none } rfl rfl,
   C9_tolerance_default_and_alias.2.2
     { sampleInitArgs with
         target_association_tolerance := some (some (1/2))
         target_stick_out_factor := some (some (1/2)) }
     (some (1/2)) (some (1/2)) rfl rfl⟩

end Pytential

namespace Pytential

/- Embedding of the `qbx_fmm_geometry_data` memoized accessor. -/

/-- A `QBXFMMGeometryData` object as constructed by `qbx_fmm_geometry_data`
(`pytential/qbx/geometry.py` is not under src). Modelled from the spec: an
immutable bundle, identified here by a construction identity `obj_id`
together with the constructor arguments the source call passes. -/
structure GeometryDataObj where
  obj_id : Nat
  target_discrs_and_qbx_sides : List (Nat × Int)
  target_association_tolerance : Rat
  tree_kind : String
  debug : Bool
deriving DecidableEq, Repr

/-- The per-source memoization state of `@memoize_method` (from `pytools`,
external to the repository; spec §5/§9: an explicit cache map keyed by
value equality, computing and inserting at most once per key): a map from
argument tuple to constructed object plus a counter of constructions
performed, which also serves as the identity of the next object. -/
structure GeoCache where
  entries : List (List (Nat × Int) × GeometryDataObj)
  builds : Nat
deriving DecidableEq, Repr

/-- `QBXLayerPotentialSource.qbx_fmm_geometry_data` under `@memoize_method`:
a cache hit returns the stored object and leaves the cache untouched; a miss
constructs `QBXFMMGeometryData(..., target_association_tolerance=...,
tree_kind=..., debug=...)` and inserts it. -/
def qbx_fmm_geometry_data_cached (cfg : QBXConfig) (cache : GeoCache)
    (target_discrs_and_qbx_sides : List (Nat × Int)) :
    GeometryDataObj × GeoCache :=
  match dictLookup cache.entries target_discrs_and_qbx_sides with
  | some g => (g, cache)
  | none =>
      let g : GeometryDataObj :=
        { obj_id := cache.builds
          target_discrs_and_qbx_sides := target_discrs_and_qbx_sides
          target_association_tolerance := cfg.target_association_tolerance
          tree_kind := cfg.tree_kind
          debug := cfg.debug }
      (g, { entries := cache.entries ++ [(target_discrs_and_qbx_sides, g)]
            builds := cache.builds + 1 })

theorem dictLookup_append_self {κ ν : Type} [DecidableEq κ]
    (m : List (κ × ν)) (k : κ) (v : ν) (h : dictLookup m k = none) :
    dictLookup (m ++ [(k, v)]) k = some v := by
  induction m with
  | nil => simp [dictLookup]
  | cons e rest ih =>
      rcases e with ⟨k', v'⟩
      by_cases hk : k' = k
      · rw [dictLookup, if_pos hk] at h
        exact Option.noConfusion h
      · rw [dictLookup, if_neg hk] at h
        show dictLookup ((k', v') :: (rest ++ [(k, v)])) k = some v
        rw [dictLookup, if_neg hk]
        exact ih h

/-- C5: calling the memoized geometry accessor a second time with an equal
argument tuple returns exactly the object produced by the first call (same
construction identity) and leaves the cache state — including the
construction counter — unchanged: the geometry is never rebuilt for a
repeated key. -/
theorem C5_geometry_data_memoized (cfg : QBXConfig) (cache : GeoCache)
    (key : List (Nat × Int)) :
    (qbx_fmm_geometry_data_cached cfg
        (qbx_fmm_geometry_data_cached cfg cache key).2 key).1
      = (qbx_fmm_geometry_data_cached cfg cache key).1
    ∧ (qbx_fmm_geometry_data_cached cfg
        (qbx_fmm_geometry_data_cached cfg cache key).2 key).2
      = (qbx_fmm_geometry_data_cached cfg cache key).2 := by
  unfold qbx_fmm_geometry_data_cached
  cases h : dictLookup cache.entries key with
  | some g => simp [h]
  | none =>
      have h2 := dictLookup_append_self cache.entries key
        ({ obj_id := cache.builds
           target_discrs_and_qbx_sides := key
           target_association_tolerance := cfg.target_association_tolerance
           tree_kind := cfg.tree_kind
           debug := cfg.debug } : GeometryDataObj) h
      simp [h, h2]

end Pytential
